import Mathlib

/-!
Verification of the trainer subscription lifecycle of the gym-app backend.

The embedding models:
* the `User` model fields relevant to the trial/subscription lifecycle and its
  pure evaluator properties (`is_trial_active`, `is_subscription_active`,
  `days_until_trial_end`, `should_be_auto_blocked`, `get_client_limit`)
  from `server/authentication/models.py`;
* the access checkpoint `TrialEnforcementMiddleware.process_request` from
  `server/authentication/middleware.py`;
* the login auto-block step of `LoginView.post`, the admin block/unblock
  endpoints, and the admin subscription-update reconciler
  (`AdminTrainerSubscriptionUpdateView.patch`) from
  `server/authentication/views.py`.

Dates are embedded as integers (a day count); timestamps as integers.
Nullable columns become `Option` fields.  Python truthiness of nullable
fields is modelled explicitly (`none` and `some 0` / `some ""` are falsy).
-/

namespace GymApp

/-- Subset of the `User` model fields that the subscription lifecycle reads
and writes (`server/authentication/models.py`). -/
structure User where
  userType : String
  isSuperuser : Bool
  subscriptionStatus : Option String
  planType : Option String
  trialStartDate : Option Int
  trialEndDate : Option Int
  clientLimit : Option Int
  accountBlocked : Bool
  blockReason : Option String
  blockedAt : Option Int
deriving DecidableEq, Repr

/-- Python truthiness of a nullable string: `None` and `''` are falsy. -/
def strTruthy : Option String → Bool
  | none => false
  | some s => !(s == "")

/-- Python truthiness of a nullable integer: `None` and `0` are falsy. -/
def intTruthy : Option Int → Bool
  | none => false
  | some d => !(d == 0)

/-- Model of `User.is_trial_active` (models.py lines 118-125). -/
def is_trial_active (u : User) (today : Int) : Bool :=
  if !(u.subscriptionStatus == some "trial") then false
  else match u.trialEndDate with
    | none => false
    | some e => decide (today ≤ e)

/-- Model of `User.is_subscription_active` (models.py lines 127-132). -/
def is_subscription_active (u : User) (today : Int) : Bool :=
  (u.subscriptionStatus == some "trial" || u.subscriptionStatus == some "active")
    && (is_trial_active u today || u.subscriptionStatus == some "active")

/-- Model of `User.days_until_trial_end` (models.py lines 134-140). -/
def days_until_trial_end (u : User) (today : Int) : Option Int :=
  match u.trialEndDate with
  | none => none
  | some e => some (max 0 (e - today))

/-- Model of `User.should_be_auto_blocked` (models.py lines 142-156). -/
def should_be_auto_blocked (u : User) (today : Int) : Bool :=
  if !(u.userType == "trainer") then false
  else if !(u.subscriptionStatus == some "trial" || u.subscriptionStatus == some "expired") then
    false
  else match u.trialEndDate with
    | none => false
    | some e => decide (today > e)

/-- The plan-based default table in `User.get_client_limit`
(`defaults.get(self.plan_type, 5)`). -/
def plan_default_limit : Option String → Int
  | some "trial" => 5
  | some "starter" => 10
  | some "professional" => 50
  | some "enterprise" => -1
  | _ => 5

/-- Model of `User.get_client_limit` (models.py lines 158-169).  The source guards
with `if self.client_limit:`, i.e. Python truthiness, so a stored limit of
`0` falls through to the plan defaults just as `None` does. -/
def get_client_limit (u : User) : Int :=
  if intTruthy u.clientLimit then u.clientLimit.getD 0
  else plan_default_limit u.planType

/-- The canned block reason written by both auto-block sites
(middleware.py line 58, views.py line 75). -/
def TRIAL_EXPIRED_MESSAGE : String :=
  "Your 14-day trial period has expired. Please contact support to upgrade your subscription."

/-- Fallback message of the 403 body when `block_reason` is falsy
(middleware.py line 68, views.py line 84). -/
def DEFAULT_BLOCKED_MESSAGE : String :=
  "Your account has been blocked. Please contact support for assistance."

/-- Model of `request.user.block_reason or DEFAULT` — Python `or` treats `None` and
the empty string as falsy. -/
def blocked_message (r : Option String) : String :=
  match r with
  | some s => if s == "" then DEFAULT_BLOCKED_MESSAGE else s
  | none => DEFAULT_BLOCKED_MESSAGE

/-- The auto-block write shared by the checkpoint (middleware.py lines 57-60)
and the login flow (views.py lines 74-77): sets the flag, the canned reason
and the timestamp together. -/
def auto_block (u : User) (now : Int) : User :=
  { u with accountBlocked := true,
           blockReason := some TRIAL_EXPIRED_MESSAGE,
           blockedAt := some now }

/-- Model of `TrialEnforcementMiddleware.EXEMPT_PATHS` (middleware.py lines 20-32). -/
def EXEMPT_PATHS : List String :=
  ["/api/auth/login/", "/api/auth/signup/", "/api/auth/logout/",
   "/api/auth/password-reset/", "/api/auth/subscription/status/",
   "/api/auth/subscription/upgrade/", "/api/auth/me/", "/api/auth/terms/",
   "/admin/", "/static/", "/media/"]

/-- Whether the first list starts with the second, character-wise. -/
def list_starts_with : List Char → List Char → Bool
  | _, [] => true
  | [], _ :: _ => false
  | c :: cs, d :: ds => c == d && list_starts_with cs ds

/-- Python `str.startswith`, character-wise. -/
def starts_with (s p : String) : Bool := list_starts_with s.data p.data

/-- Model of `any(request.path.startswith(path) for path in EXEMPT_PATHS)`. -/
def path_is_exempt (path : String) : Bool :=
  EXEMPT_PATHS.any (fun p => starts_with path p)

/-- The part of an HTTP request the checkpoint reads: the path, whether the
request carries an authenticated user, and that user. -/
structure HttpRequest where
  path : String
  isAuthenticated : Bool
  user : User
deriving DecidableEq, Repr

/-- Outcome of `TrialEnforcementMiddleware.process_request`: pass-through
(`return None`), the 403 blocked JSON body, the 402 expired JSON body, or
pass-through decorated with the trial-warning headers. -/
inductive CheckResult where
  | passThrough
  | blockedResponse (message : String) (blockedAt : Option Int)
  | expiredResponse (subStatus : Option String) (trialEnd : Option Int)
  | warnResponse (daysLeft : Int)
deriving DecidableEq, Repr

/-- Whether the result is the 403 blocked rejection. -/
def CheckResult.isBlocked : CheckResult → Bool
  | .blockedResponse _ _ => true
  | _ => false

/-- Whether the result is the 402 subscription-expired rejection. -/
def CheckResult.isExpired : CheckResult → Bool
  | .expiredResponse _ _ => true
  | _ => false

/-- Whether the result is a rejection (a non-2xx short-circuit). -/
def CheckResult.isRejection : CheckResult → Bool
  | .blockedResponse _ _ => true
  | .expiredResponse _ _ => true
  | _ => false

/-- The auto-block side effect of the checkpoint (middleware.py lines 54-62):
the user row after the conditional write. -/
def checkpoint_eval (u0 : User) (today now : Int) : User :=
  if should_be_auto_blocked u0 today && !u0.accountBlocked then auto_block u0 now else u0

/-- Lines 64-98 of the checkpoint, evaluated on the post-auto-block row:
blocked check, legacy null-status skip, subscription check, trial warning. -/
def checkpoint_decision (u : User) (today : Int) : CheckResult × User :=
  if u.accountBlocked then
    (.blockedResponse (blocked_message u.blockReason) u.blockedAt, u)
  else if u.subscriptionStatus.isNone then (.passThrough, u)
  else if !(is_subscription_active u today) then
    (.expiredResponse u.subscriptionStatus u.trialEndDate, u)
  else if u.subscriptionStatus == some "trial" then
    match days_until_trial_end u today with
    | some d => if d ≤ 3 then (.warnResponse d, u) else (.passThrough, u)
    | none => (.passThrough, u)
  else (.passThrough, u)

/-- The trainer branch of `process_request` (middleware.py lines 53-98):
auto-block evaluation, then the decision chain. -/
def trainer_checkpoint (u0 : User) (today now : Int) : CheckResult × User :=
  checkpoint_decision (checkpoint_eval u0 today now) today

/-- Model of `TrialEnforcementMiddleware.process_request` (middleware.py lines 34-98).
Returns the decision together with the (possibly auto-blocked) user row.
`today` is `timezone.now().date()`, `now` is `timezone.now()`. -/
def process_request (req : HttpRequest) (today now : Int) : CheckResult × User :=
  if path_is_exempt req.path then (.passThrough, req.user)
  else if !req.isAuthenticated then (.passThrough, req.user)
  else if req.user.isSuperuser || req.user.userType == "admin" then (.passThrough, req.user)
  else if !(req.user.userType == "trainer") then (.passThrough, req.user)
  else trainer_checkpoint req.user today now

/-- Outcome of the block-handling part of `LoginView.post`: a 403 blocked
response or success (token issued). -/
inductive LoginResult where
  | blockedResponse (message : String) (blockedAt : Option Int)
  | success
deriving DecidableEq, Repr

/-- The auto-block and blocked-check steps of `LoginView.post`
(views.py lines 71-87), applied to the validated user. -/
def login_post (u : User) (today now : Int) : LoginResult × User :=
  let u1 := if u.userType == "trainer" && should_be_auto_blocked u today && !u.accountBlocked
            then auto_block u now else u
  if u1.userType == "trainer" && u1.accountBlocked then
    (.blockedResponse (blocked_message u1.blockReason) u1.blockedAt, u1)
  else (.success, u1)

/-- Model of `TrainerBlockView.post` (views.py lines 636-642): block with the given
reason, defaulting to the canned admin message when the key is absent. -/
def trainer_block (u : User) (reason : Option String) (now : Int) : User :=
  { u with accountBlocked := true,
           blockReason := some (reason.getD "Account blocked by administrator"),
           blockedAt := some now }

/-- Model of `TrainerUnblockView.post` (views.py lines 666-670). -/
def trainer_unblock (u : User) : User :=
  { u with accountBlocked := false, blockReason := none, blockedAt := none }

/-- The body parameters read by `AdminTrainerSubscriptionUpdateView.patch`
(views.py lines 692-695); `none` stands for an absent key. -/
structure PatchParams where
  subscriptionStatus : Option String
  planType : Option String
  clientLimit : Option Int
  extendTrialDays : Option Int
deriving DecidableEq, Repr

/-- Valid statuses accepted by the admin PATCH (views.py line 699). -/
def VALID_STATUSES : List String := ["trial", "active", "expired", "cancelled", "suspended"]

/-- Valid plans accepted by the admin PATCH (views.py line 709). -/
def VALID_PLANS : List String := ["trial", "starter", "professional", "enterprise"]

/-- Model of `if subscription_status: trainer.subscription_status = ...`
(views.py lines 698, 705). -/
def upd_status (u : User) (p : PatchParams) : User :=
  if strTruthy p.subscriptionStatus
  then { u with subscriptionStatus := p.subscriptionStatus } else u

/-- Model of `if plan_type: trainer.plan_type = ...` (views.py lines 708, 715). -/
def upd_plan (u : User) (p : PatchParams) : User :=
  if strTruthy p.planType then { u with planType := p.planType } else u

/-- Model of `if client_limit is not None: trainer.client_limit = ...`
(views.py lines 718-719). -/
def upd_climit (u : User) (p : PatchParams) : User :=
  match p.clientLimit with
  | some c => { u with clientLimit := some c }
  | none => u

/-- Model of `if extend_trial_days: ...` (views.py lines 722-729): extend an existing
end date, or start a fresh trial window from today. -/
def upd_extend (u : User) (p : PatchParams) (today : Int) : User :=
  if intTruthy p.extendTrialDays then
    match u.trialEndDate with
    | some e => { u with trialEndDate := some (e + p.extendTrialDays.getD 0) }
    | none => { u with trialStartDate := some today,
                       trialEndDate := some (today + p.extendTrialDays.getD 0),
                       subscriptionStatus := some "trial",
                       planType := some "trial" }
  else u

/-- The field-update phase of `AdminTrainerSubscriptionUpdateView.patch`
(views.py lines 697-731): the four conditional updates in source order.
`none` models a 400 validation response, in which case no row is written. -/
def apply_updates (u : User) (p : PatchParams) (today : Int) : Option User :=
  if strTruthy p.subscriptionStatus
      && !(VALID_STATUSES.contains (p.subscriptionStatus.getD "")) then none
  else
    let u1 := upd_status u p
    if strTruthy p.planType && !(VALID_PLANS.contains (p.planType.getD "")) then none
    else some (upd_extend (upd_climit (upd_plan u1 p) p) p today)

/-- The `should_unblock` elif-chain of the reconciler (views.py lines
737-757), evaluated on the post-update row `u1`. -/
def compute_should_unblock (u1 : User) (p : PatchParams) (today : Int) : Bool :=
  if p.subscriptionStatus == some "active" then true
  else if intTruthy p.extendTrialDays
          && (match u1.trialEndDate with
              | some e => decide (today ≤ e)
              | none => false) then true
  else if strTruthy p.subscriptionStatus
          && !((["trial", "expired"] : List String).contains (p.subscriptionStatus.getD ""))
          then true
  else if !(should_be_auto_blocked u1 today) then true
  else false

/-- The auto-unblock phase of the admin PATCH (views.py lines 735-764):
only a blocked row is examined, and an unblock clears the flag, the reason
and the timestamp together. -/
def reconcile_block (u1 : User) (p : PatchParams) (today : Int) : User :=
  if u1.accountBlocked then
    if compute_should_unblock u1 p today then
      { u1 with accountBlocked := false, blockReason := none, blockedAt := none }
    else u1
  else u1

/-- Model of `AdminTrainerSubscriptionUpdateView.patch` end to end (views.py lines
684-784): field updates, then block reconciliation. -/
def admin_patch (u : User) (p : PatchParams) (today : Int) : Option User :=
  (apply_updates u p today).map (fun u1 => reconcile_block u1 p today)

/-! ### Concrete rows used by witnesses and counterexamples -/

/-- A trainer fresh out of signup: 14-day trial starting at day 0. -/
def sampleTrialTrainer : User :=
  { userType := "trainer", isSuperuser := false,
    subscriptionStatus := some "trial", planType := some "trial",
    trialStartDate := some 0, trialEndDate := some 14, clientLimit := none,
    accountBlocked := false, blockReason := none, blockedAt := none }

/-- A trainer with an explicitly stored client limit of `0`. -/
def zeroLimitTrainer : User :=
  { sampleTrialTrainer with clientLimit := some 0, planType := some "enterprise" }

/-- A legacy trainer with no subscription status set up. -/
def nullStatusTrainer : User :=
  { sampleTrialTrainer with subscriptionStatus := none }

/-- A blocked trainer whose subscription expired. -/
def blockedExpiredTrainer : User :=
  { sampleTrialTrainer with subscriptionStatus := some "expired",
                            accountBlocked := true,
                            blockReason := some "Account blocked by administrator",
                            blockedAt := some 99 }

/-- A trial trainer whose trial ends two days from day 15. -/
def warnTrainer : User :=
  { sampleTrialTrainer with trialEndDate := some 17 }

/-- A trainer on a paid, active subscription. -/
def activeTrainer : User :=
  { sampleTrialTrainer with subscriptionStatus := some "active",
                            planType := some "starter" }

/-- A non-exempt, authenticated request carrying the given user. -/
def sampleRequest (u : User) : HttpRequest :=
  { path := "/api/clients/", isAuthenticated := true, user := u }

/-- Admin PATCH body that only sets the status to `active`. -/
def activatePatch : PatchParams :=
  { subscriptionStatus := some "active", planType := none,
    clientLimit := none, extendTrialDays := none }

/-- Admin PATCH body that only extends the trial by 30 days. -/
def extendPatch : PatchParams :=
  { subscriptionStatus := none, planType := none,
    clientLimit := none, extendTrialDays := some 30 }

/-- A trainer with an explicitly stored nonzero client limit. -/
def sevenLimitTrainer : User :=
  { sampleTrialTrainer with clientLimit := some 7 }

/-- The blocked expired trainer right after the admin PATCH set the status
to `active`, before block reconciliation. -/
def activatedBlockedTrainer : User :=
  { blockedExpiredTrainer with subscriptionStatus := some "active" }

/-- The blocked expired trainer after the full admin PATCH: status `active`
and automatically unblocked. -/
def reactivatedTrainer : User :=
  { sampleTrialTrainer with subscriptionStatus := some "active" }

/-! ### Helper lemmas -/

/-- When the gating checks pass for a trainer, the checkpoint runs the
trainer branch. -/
theorem process_request_trainer (req : HttpRequest) (today now : Int)
    (hex : path_is_exempt req.path = false) (hauth : req.isAuthenticated = true)
    (hsu : req.user.isSuperuser = false) (htr : req.user.userType = "trainer") :
    process_request req today now = trainer_checkpoint req.user today now := by
  simp [process_request, hex, hauth, hsu, htr]

/-- The decision chain returns the row it was given. -/
theorem checkpoint_decision_snd (u : User) (today : Int) :
    (checkpoint_decision u today).2 = u := by
  unfold checkpoint_decision
  repeat' split
  all_goals rfl

/-- No auto-block write happens when the evaluator says no. -/
theorem checkpoint_eval_of_not_should (u0 : User) (today now : Int)
    (h : should_be_auto_blocked u0 today = false) :
    checkpoint_eval u0 today now = u0 := by
  simp [checkpoint_eval, h]

/-- No auto-block write happens on an already blocked row. -/
theorem checkpoint_eval_of_blocked (u0 : User) (today now : Int)
    (h : u0.accountBlocked = true) :
    checkpoint_eval u0 today now = u0 := by
  simp [checkpoint_eval, h]

/-- Characterization of the two rejections of the decision chain. -/
theorem checkpoint_decision_spec (u : User) (today : Int) :
    ((checkpoint_decision u today).1.isBlocked = true ↔ u.accountBlocked = true)
    ∧ (u.accountBlocked = true →
        (checkpoint_decision u today).1 =
          .blockedResponse (blocked_message u.blockReason) u.blockedAt)
    ∧ ((checkpoint_decision u today).1.isExpired = true ↔
        (u.accountBlocked = false ∧ u.subscriptionStatus ≠ none
          ∧ is_subscription_active u today = false)) := by
  by_cases hb : u.accountBlocked = true
  · simp [checkpoint_decision, hb, CheckResult.isBlocked, CheckResult.isExpired]
  · rw [Bool.not_eq_true] at hb
    rcases hn : u.subscriptionStatus with _ | s
    · simp [checkpoint_decision, hb, hn, CheckResult.isBlocked, CheckResult.isExpired]
    · by_cases ha : is_subscription_active u today = true
      · by_cases hs : s = "trial"
        · rcases hd : days_until_trial_end u today with _ | d
          · simp [checkpoint_decision, hb, hn, ha, hs, hd,
              CheckResult.isBlocked, CheckResult.isExpired]
          · by_cases h3 : d ≤ 3 <;>
              simp [checkpoint_decision, hb, hn, ha, hs, hd, h3,
                CheckResult.isBlocked, CheckResult.isExpired]
        · simp [checkpoint_decision, hb, hn, ha, hs,
            CheckResult.isBlocked, CheckResult.isExpired]
      · rw [Bool.not_eq_true] at ha
        simp [checkpoint_decision, hb, hn, ha,
          CheckResult.isBlocked, CheckResult.isExpired]

/-- The status update never touches the block fields. -/
theorem upd_status_blocks (u : User) (p : PatchParams) :
    (upd_status u p).accountBlocked = u.accountBlocked
    ∧ (upd_status u p).blockReason = u.blockReason
    ∧ (upd_status u p).blockedAt = u.blockedAt := by
  unfold upd_status; split <;> exact ⟨rfl, rfl, rfl⟩

/-- The plan update never touches the block fields. -/
theorem upd_plan_blocks (u : User) (p : PatchParams) :
    (upd_plan u p).accountBlocked = u.accountBlocked
    ∧ (upd_plan u p).blockReason = u.blockReason
    ∧ (upd_plan u p).blockedAt = u.blockedAt := by
  unfold upd_plan; split <;> exact ⟨rfl, rfl, rfl⟩

/-- The client-limit update never touches the block fields. -/
theorem upd_climit_blocks (u : User) (p : PatchParams) :
    (upd_climit u p).accountBlocked = u.accountBlocked
    ∧ (upd_climit u p).blockReason = u.blockReason
    ∧ (upd_climit u p).blockedAt = u.blockedAt := by
  unfold upd_climit; split <;> exact ⟨rfl, rfl, rfl⟩

/-- The trial extension never touches the block fields. -/
theorem upd_extend_blocks (u : User) (p : PatchParams) (today : Int) :
    (upd_extend u p today).accountBlocked = u.accountBlocked
    ∧ (upd_extend u p today).blockReason = u.blockReason
    ∧ (upd_extend u p today).blockedAt = u.blockedAt := by
  unfold upd_extend
  split
  · split <;> exact ⟨rfl, rfl, rfl⟩
  · exact ⟨rfl, rfl, rfl⟩

/-- The field-update phase of the admin PATCH never touches the block
fields. -/
theorem apply_updates_block_fields (u : User) (p : PatchParams) (today : Int) (u1 : User)
    (h : apply_updates u p today = some u1) :
    u1.accountBlocked = u.accountBlocked ∧ u1.blockReason = u.blockReason
      ∧ u1.blockedAt = u.blockedAt := by
  unfold apply_updates at h
  split at h
  · cases h
  split at h
  · cases h
  rw [Option.some.injEq] at h
  subst h
  have h1 := upd_status_blocks u p
  have h2 := upd_plan_blocks (upd_status u p) p
  have h3 := upd_climit_blocks (upd_plan (upd_status u p) p) p
  have h4 := upd_extend_blocks (upd_climit (upd_plan (upd_status u p) p) p) p today
  exact ⟨by rw [h4.1, h3.1, h2.1, h1.1],
         by rw [h4.2.1, h3.2.1, h2.2.1, h1.2.1],
         by rw [h4.2.2, h3.2.2, h2.2.2, h1.2.2]⟩

/-- The reconciler's elif chain is the disjunction of its four rules. -/
theorem compute_should_unblock_iff (u1 : User) (p : PatchParams) (today : Int) :
    compute_should_unblock u1 p today = true ↔
      (p.subscriptionStatus = some "active"
        ∨ (intTruthy p.extendTrialDays = true ∧ ∃ e, u1.trialEndDate = some e ∧ today ≤ e)
        ∨ (strTruthy p.subscriptionStatus = true
            ∧ p.subscriptionStatus ≠ some "trial" ∧ p.subscriptionStatus ≠ some "expired")
        ∨ should_be_auto_blocked u1 today = false) := by
  unfold compute_should_unblock
  rcases hss : p.subscriptionStatus with _ | s <;>
    rcases hte : u1.trialEndDate with _ | e <;>
      simp [hss, hte, strTruthy]

/-! ### Theorems -/

/-- Claim C3: `shouldAutoBlock` is true iff the user is a trainer, the
subscription status is `trial` or `expired`, a trial end date is set, and
today is strictly after it; in every other case (a missing trial end date
included) it is false. -/
theorem should_be_auto_blocked_iff (u : User) (today : Int) :
    should_be_auto_blocked u today = true ↔
      (u.userType = "trainer"
        ∧ (u.subscriptionStatus = some "trial" ∨ u.subscriptionStatus = some "expired")
        ∧ ∃ e, u.trialEndDate = some e ∧ e < today) := by
  cases hte : u.trialEndDate <;>
    simp [should_be_auto_blocked, hte]

/-- Claim C8: `daysUntilTrialEnd` is `null` iff the trial end date is unset;
otherwise it is `max 0 (trialEndDate - today)`, which is never negative. -/
theorem days_until_trial_end_spec (u : User) (today : Int) :
    (days_until_trial_end u today = none ↔ u.trialEndDate = none)
    ∧ (∀ e, u.trialEndDate = some e →
        days_until_trial_end u today = some (max 0 (e - today)))
    ∧ (∀ d, days_until_trial_end u today = some d → 0 ≤ d) := by
  cases hte : u.trialEndDate <;>
    simp [days_until_trial_end, hte]

/-- Witness for C8: a trainer whose trial ends at day 14, queried at day 5,
has nine days left. -/
theorem days_until_trial_end_spec_witness :
    days_until_trial_end sampleTrialTrainer 5 = some (max 0 (14 - 5)) :=
  (days_until_trial_end_spec sampleTrialTrainer 5).2.1 14 rfl

/-- Counterexample for C5: a stored client limit of `0` is set but is not
returned — the Python guard `if self.client_limit:` treats `0` like `None`,
so the plan default (`-1` for the enterprise plan here) is returned instead. -/
theorem get_client_limit_zero_counterexample :
    zeroLimitTrainer.clientLimit = some 0
    ∧ get_client_limit zeroLimitTrainer ≠ 0
    ∧ get_client_limit zeroLimitTrainer = plan_default_limit zeroLimitTrainer.planType := by
  decide

/-- Claim C5 (amended): `resolveClientLimit` returns the stored client limit
whenever it is set and nonzero; when unset or zero it returns the plan-based
default {trial: 5, starter: 10, professional: 50, enterprise: -1}, and 5 for
any plan outside that table (a null plan included). -/
theorem get_client_limit_spec (u : User) :
    (∀ c, u.clientLimit = some c → c ≠ 0 → get_client_limit u = c)
    ∧ ((u.clientLimit = none ∨ u.clientLimit = some 0) →
        get_client_limit u = plan_default_limit u.planType)
    ∧ plan_default_limit (some "trial") = 5
    ∧ plan_default_limit (some "starter") = 10
    ∧ plan_default_limit (some "professional") = 50
    ∧ plan_default_limit (some "enterprise") = -1
    ∧ plan_default_limit none = 5
    ∧ (∀ s, s ≠ "trial" → s ≠ "starter" → s ≠ "professional" → s ≠ "enterprise" →
        plan_default_limit (some s) = 5) := by
  refine ⟨?_, ?_, rfl, rfl, rfl, rfl, rfl, ?_⟩
  · intro c hc hne
    simp [get_client_limit, intTruthy, hc, hne]
  · rintro (h | h) <;> simp [get_client_limit, intTruthy, h]
  · intro s h1 h2 h3 h4
    unfold plan_default_limit
    split <;> simp_all

/-- Witness for C5: an explicitly stored nonzero limit of 7 is returned. -/
theorem get_client_limit_spec_witness :
    get_client_limit sevenLimitTrainer = 7 :=
  (get_client_limit_spec sevenLimitTrainer).1 7 rfl (by decide)

/-- Counterexample for C1: a non-exempt, authenticated, non-admin trainer
request with a null subscription status passes through even though
`is_subscription_active` is false — the 402 is not produced iff
`isSubscriptionActive` is false, because the null-status backward
compatibility skip comes first. -/
theorem checkpoint_null_status_counterexample :
    path_is_exempt (sampleRequest nullStatusTrainer).path = false
    ∧ (sampleRequest nullStatusTrainer).isAuthenticated = true
    ∧ (sampleRequest nullStatusTrainer).user.isSuperuser = false
    ∧ (sampleRequest nullStatusTrainer).user.userType = "trainer"
    ∧ is_subscription_active (sampleRequest nullStatusTrainer).user 15 = false
    ∧ (process_request (sampleRequest nullStatusTrainer) 15 1500).1 =
        CheckResult.passThrough := by
  decide

/-- Claim C1 (amended): for every non-exempt, authenticated request by a
non-admin, non-superuser trainer, the checkpoint rejects with the 403
blocked error (surfacing the block reason) iff `accountBlocked` is true
after the auto-block evaluation; otherwise it rejects with the 402
subscription-expired error iff the subscription status is non-null and
`isSubscriptionActive` is false (a null status passes through); these are
the only two rejection kinds. -/
theorem checkpoint_rejection_kinds (req : HttpRequest) (today now : Int)
    (hex : path_is_exempt req.path = false) (hauth : req.isAuthenticated = true)
    (hsu : req.user.isSuperuser = false) (htr : req.user.userType = "trainer") :
    ((process_request req today now).1.isBlocked = true ↔
        (process_request req today now).2.accountBlocked = true)
    ∧ ((process_request req today now).2.accountBlocked = true →
        (process_request req today now).1 =
          CheckResult.blockedResponse
            (blocked_message (process_request req today now).2.blockReason)
            (process_request req today now).2.blockedAt)
    ∧ ((process_request req today now).1.isExpired = true ↔
        ((process_request req today now).2.accountBlocked = false
          ∧ (process_request req today now).2.subscriptionStatus ≠ none
          ∧ is_subscription_active (process_request req today now).2 today = false))
    ∧ (∀ r : CheckResult, r.isRejection = true → r.isBlocked = true ∨ r.isExpired = true) := by
  rw [process_request_trainer req today now hex hauth hsu htr]
  unfold trainer_checkpoint
  rw [checkpoint_decision_snd]
  refine ⟨(checkpoint_decision_spec _ _).1, (checkpoint_decision_spec _ _).2.1,
    (checkpoint_decision_spec _ _).2.2, ?_⟩
  intro r hr
  cases r <;> simp_all [CheckResult.isRejection, CheckResult.isBlocked, CheckResult.isExpired]

/-- Witness for C1: a blocked expired trainer gets the 403 body carrying the
stored block reason and timestamp. -/
theorem checkpoint_rejection_kinds_witness :
    (process_request (sampleRequest blockedExpiredTrainer) 20 1500).1 =
      CheckResult.blockedResponse
        (blocked_message
          (process_request (sampleRequest blockedExpiredTrainer) 20 1500).2.blockReason)
        ((process_request (sampleRequest blockedExpiredTrainer) 20 1500).2.blockedAt) :=
  (checkpoint_rejection_kinds (sampleRequest blockedExpiredTrainer) 20 1500 (by decide)
    (by decide) (by decide) (by decide)).2.1 (by decide)

/-- Claim C7: the checkpoint's auto-block mutation is idempotent — an
already-blocked account is returned unchanged, and a mutated account was
unblocked, satisfied `shouldAutoBlock`, and received exactly the auto-block
write. -/
theorem checkpoint_autoblock_idempotent (req : HttpRequest) (today now : Int) :
    (req.user.accountBlocked = true → (process_request req today now).2 = req.user)
    ∧ ((process_request req today now).2 ≠ req.user →
        (req.user.accountBlocked = false ∧ should_be_auto_blocked req.user today = true
          ∧ (process_request req today now).2 = auto_block req.user now)) := by
  unfold process_request
  split
  · simp
  split
  · simp
  split
  · simp
  split
  · simp
  unfold trainer_checkpoint
  rw [checkpoint_decision_snd]
  unfold checkpoint_eval
  by_cases hc : (should_be_auto_blocked req.user today && !req.user.accountBlocked) = true
  · rw [if_pos hc]
    rw [Bool.and_eq_true, Bool.not_eq_true'] at hc
    constructor
    · intro hb; rw [hc.2] at hb; cases hb
    · intro _; exact ⟨hc.2, hc.1, rfl⟩
  · rw [if_neg hc]
    exact ⟨fun _ => rfl, fun h => absurd rfl h⟩

/-- Witness for C7: a second evaluation on an already-blocked trainer leaves
the row untouched. -/
theorem checkpoint_autoblock_idempotent_witness :
    (process_request (sampleRequest blockedExpiredTrainer) 20 1500).2 =
      (sampleRequest blockedExpiredTrainer).user :=
  (checkpoint_autoblock_idempotent (sampleRequest blockedExpiredTrainer) 20 1500).1 rfl

/-- Claim C9: a non-exempt, authenticated trainer request that passes the
block and subscription-active checks with status `trial` and at most three
days left is allowed with the warning signal carrying the days remaining. -/
theorem trial_warning_attached (req : HttpRequest) (today now : Int) (d : Int)
    (hex : path_is_exempt req.path = false) (hauth : req.isAuthenticated = true)
    (hsu : req.user.isSuperuser = false) (htr : req.user.userType = "trainer")
    (hnb : req.user.accountBlocked = false)
    (hstat : req.user.subscriptionStatus = some "trial")
    (hact : is_subscription_active req.user today = true)
    (hd : days_until_trial_end req.user today = some d)
    (hd3 : d ≤ 3) :
    process_request req today now = (CheckResult.warnResponse d, req.user) := by
  have hta : is_trial_active req.user today = true := by
    simp [is_subscription_active, hstat] at hact
    exact hact
  have hns : should_be_auto_blocked req.user today = false := by
    unfold is_trial_active at hta
    unfold should_be_auto_blocked
    rcases hte : req.user.trialEndDate with _ | e <;> simp_all [hstat]
  rw [process_request_trainer req today now hex hauth hsu htr]
  unfold trainer_checkpoint
  rw [checkpoint_eval_of_not_should _ _ _ hns]
  simp [checkpoint_decision, hnb, hstat, hact, hd, hd3]

/-- Witness for C9: a trainer whose trial ends at today+2 is allowed with a
warning carrying 2 days left. -/
theorem trial_warning_attached_witness :
    process_request (sampleRequest warnTrainer) 15 1500 =
      (CheckResult.warnResponse 2, (sampleRequest warnTrainer).user) :=
  trial_warning_attached (sampleRequest warnTrainer) 15 1500 2 (by decide) (by decide)
    (by decide) (by decide) (by decide) (by decide) (by decide) (by decide) (by decide)

/-- Claim C10: a non-exempt, authenticated, unblocked trainer with a null
subscription status passes through the checkpoint without the 402
rejection, even though `isSubscriptionActive` is false. -/
theorem null_status_fail_open (req : HttpRequest) (today now : Int)
    (hex : path_is_exempt req.path = false) (hauth : req.isAuthenticated = true)
    (hsu : req.user.isSuperuser = false) (htr : req.user.userType = "trainer")
    (hnb : req.user.accountBlocked = false)
    (hstat : req.user.subscriptionStatus = none) :
    process_request req today now = (CheckResult.passThrough, req.user)
    ∧ is_subscription_active req.user today = false := by
  have hns : should_be_auto_blocked req.user today = false := by
    simp [should_be_auto_blocked, hstat]
  rw [process_request_trainer req today now hex hauth hsu htr]
  unfold trainer_checkpoint
  rw [checkpoint_eval_of_not_should _ _ _ hns]
  constructor
  · simp [checkpoint_decision, hnb, hstat]
  · simp [is_subscription_active, hstat]

/-- Witness for C10: a legacy trainer without subscription fields passes
through at day 15. -/
theorem null_status_fail_open_witness :
    process_request (sampleRequest nullStatusTrainer) 15 1500 =
      (CheckResult.passThrough, (sampleRequest nullStatusTrainer).user) :=
  (null_status_fail_open (sampleRequest nullStatusTrainer) 15 1500 (by decide) (by decide)
    (by decide) (by decide) (by decide) (by decide)).1

/-- Claim C4: a trainer with an `active` subscription status is never
auto-blocked — `shouldAutoBlock` is false for every date regardless of
trial dates, and neither the checkpoint nor the login evaluation mutates
such an account. -/
theorem active_status_never_auto_blocked (u : User) (req : HttpRequest) (today now : Int)
    (hac : u.subscriptionStatus = some "active") (hreq : req.user = u) :
    should_be_auto_blocked u today = false
    ∧ (process_request req today now).2 = u
    ∧ (login_post u today now).2 = u := by
  have hs : should_be_auto_blocked u today = false := by
    simp [should_be_auto_blocked, hac]
  refine ⟨hs, ?_, ?_⟩
  · unfold process_request
    split
    · simp [hreq]
    split
    · simp [hreq]
    split
    · simp [hreq]
    split
    · simp [hreq]
    unfold trainer_checkpoint
    rw [checkpoint_decision_snd, hreq, checkpoint_eval_of_not_should u today now hs]
  · unfold login_post
    simp only [hs, Bool.and_false, Bool.false_and]
    split
    next h => cases h
    next h => split <;> rfl

/-- Witness for C4: an active trainer is untouched by the login evaluation
at an arbitrary late date. -/
theorem active_status_never_auto_blocked_witness :
    (login_post activeTrainer 100 9000).2 = activeTrainer :=
  (active_status_never_auto_blocked activeTrainer (sampleRequest activeTrainer)
    100 9000 rfl rfl).2.2

/-- Claim C2: after an admin subscription update on a blocked trainer, the
account is unblocked (flag cleared, reason and timestamp nulled) iff the new
status is `active`, or the trial was extended to a date not before today, or
a new status outside {trial, expired} was set, or `shouldAutoBlock` on the
post-update row is false; otherwise it remains blocked. -/
theorem admin_unblock_iff (u : User) (p : PatchParams) (today : Int) (u1 : User)
    (hb : u.accountBlocked = true)
    (happ : apply_updates u p today = some u1) :
    admin_patch u p today = some (reconcile_block u1 p today)
    ∧ (((reconcile_block u1 p today).accountBlocked = false
        ∧ (reconcile_block u1 p today).blockReason = none
        ∧ (reconcile_block u1 p today).blockedAt = none) ↔
      (p.subscriptionStatus = some "active"
        ∨ (intTruthy p.extendTrialDays = true ∧ ∃ e, u1.trialEndDate = some e ∧ today ≤ e)
        ∨ (strTruthy p.subscriptionStatus = true
            ∧ p.subscriptionStatus ≠ some "trial" ∧ p.subscriptionStatus ≠ some "expired")
        ∨ should_be_auto_blocked u1 today = false)) := by
  have hb1 : u1.accountBlocked = true := by
    rw [(apply_updates_block_fields u p today u1 happ).1, hb]
  constructor
  · unfold admin_patch
    rw [happ]
    rfl
  rw [← compute_should_unblock_iff u1 p today]
  unfold reconcile_block
  rw [if_pos hb1]
  by_cases hc : compute_should_unblock u1 p today = true
  · rw [if_pos hc]
    simp [hc]
  · rw [if_neg hc]
    simp [hb1, hc]

/-- Witness for C2: the reconciler scenario — a blocked expired trainer
whose status is PATCHed to `active` ends up unblocked with reason and
timestamp cleared. -/
theorem admin_unblock_iff_witness :
    (reconcile_block activatedBlockedTrainer activatePatch 20).accountBlocked = false
    ∧ (reconcile_block activatedBlockedTrainer activatePatch 20).blockReason = none
    ∧ (reconcile_block activatedBlockedTrainer activatePatch 20).blockedAt = none :=
  ((admin_unblock_iff blockedExpiredTrainer activatePatch 20 activatedBlockedTrainer rfl
      (by decide)).2).mpr (Or.inl rfl)

/-- Claim C6: every blocking operation (checkpoint auto-block, login
auto-block, admin block) writes a non-null `blockedAt` together with the
flag, so a blocked row always carries a timestamp, and every unblocking
operation (admin unblock, reconciler unblock) clears both `blockReason` and
`blockedAt`. -/
theorem block_timestamp_invariant (u : User) (req : HttpRequest) (p : PatchParams)
    (reason : Option String) (today now : Int) (u2 : User)
    (hinv : u.accountBlocked = true → u.blockedAt ≠ none)
    (hreq : req.user = u)
    (hpatch : admin_patch u p today = some u2) :
    ((process_request req today now).2.accountBlocked = true →
        (process_request req today now).2.blockedAt ≠ none)
    ∧ ((login_post u today now).2.accountBlocked = true →
        (login_post u today now).2.blockedAt ≠ none)
    ∧ ((trainer_block u reason now).accountBlocked = true
        ∧ (trainer_block u reason now).blockedAt = some now)
    ∧ ((trainer_unblock u).accountBlocked = false
        ∧ (trainer_unblock u).blockReason = none
        ∧ (trainer_unblock u).blockedAt = none)
    ∧ (u2.accountBlocked = true → u2.blockedAt ≠ none)
    ∧ (u.accountBlocked = true → u2.accountBlocked = false →
        u2.blockReason = none ∧ u2.blockedAt = none) := by
  have hmain : (u2.accountBlocked = true → u2.blockedAt ≠ none)
      ∧ (u.accountBlocked = true → u2.accountBlocked = false →
          u2.blockReason = none ∧ u2.blockedAt = none) := by
    unfold admin_patch at hpatch
    rcases ha : apply_updates u p today with _ | u1
    · rw [ha] at hpatch; cases hpatch
    · rw [ha] at hpatch
      simp only [Option.map_some'] at hpatch
      rw [Option.some.injEq] at hpatch
      subst hpatch
      have hpres := apply_updates_block_fields u p today u1 ha
      constructor
      · unfold reconcile_block
        split
        · split
          · intro h; cases h
          · intro hb1
            rw [hpres.2.2]
            exact hinv (by rw [← hpres.1]; exact hb1)
        · intro hb1
          rw [hpres.2.2]
          exact hinv (by rw [← hpres.1]; exact hb1)
      · intro hub
        unfold reconcile_block
        split
        · split
          · intro _; exact ⟨rfl, rfl⟩
          · intro hfalse
            rw [hpres.1, hub] at hfalse; cases hfalse
        · intro hfalse
          rw [hpres.1, hub] at hfalse; cases hfalse
  refine ⟨?_, ?_, ⟨rfl, rfl⟩, ⟨rfl, rfl, rfl⟩, hmain.1, hmain.2⟩
  · unfold process_request
    split
    · simp only [hreq]; exact hinv
    split
    · simp only [hreq]; exact hinv
    split
    · simp only [hreq]; exact hinv
    split
    · simp only [hreq]; exact hinv
    unfold trainer_checkpoint
    rw [checkpoint_decision_snd]
    unfold checkpoint_eval
    split
    · intro _; simp [auto_block]
    · simp only [hreq]; exact hinv
  · unfold login_post
    by_cases hc : (u.userType == "trainer" && should_be_auto_blocked u today
        && !u.accountBlocked) = true
    · rw [if_pos hc]
      dsimp only
      split <;> (intro _; simp [auto_block])
    · rw [if_neg hc]
      dsimp only
      split <;> exact hinv

/-- Witness for C6: the admin block write at timestamp 77 sets the flag and
the timestamp together. -/
theorem block_timestamp_invariant_witness :
    (trainer_block blockedExpiredTrainer none 77).accountBlocked = true
    ∧ (trainer_block blockedExpiredTrainer none 77).blockedAt = some 77 :=
  (block_timestamp_invariant blockedExpiredTrainer (sampleRequest blockedExpiredTrainer)
    activatePatch none 20 77 reactivatedTrainer (fun _ => by decide) rfl (by decide)).2.2.1

end GymApp
